import Mathlib

/-!
Verification development for the SteamworksMinimalClientServer repository.

The server logic lives in `server.h` / `server.cpp` (class `Server`, registry
`m_mapClientData : unordered_map<HSteamNetConnection, ClientConnectionData_t>`)
and the client logic in `client.h` / `client.cpp` (class `Client`).
Handlers are embedded as pure functions from the registry (the only mutable
shared state the handlers touch) and the callback arguments to a new registry
plus a list of observable effects (Steam API calls, outbound sends, log lines),
in the order the source performs them.

Machine integers are modelled as `Nat`; `CSteamID` is its `uint64` value with
`0` standing for an invalid id (`CSteamID().IsValid() = false`), and
`HSteamNetConnection` is a `Nat` with `0` for `k_HSteamNetConnection_Invalid`.
-/

set_option maxRecDepth 40000

namespace SMCS

/-- `k_HSteamNetConnection_Invalid` from the SDK, modelled as `0`. -/
def k_HSteamNetConnection_Invalid : Nat := 0

/-- `k_EAuthSessionResponseOK` from the SDK (value `0`). -/
def k_EAuthSessionResponseOK : Nat := 0

/-- `ClientConnectionData_t::EAuthState` from `server.h`. -/
inductive EAuthState
  | AUTH_PENDING
  | AUTH_TICKET_RECEIVED
  | AUTH_VALIDATED
  | AUTH_FAILED
  deriving DecidableEq

/-- `ClientConnectionData_t` from `server.h`: per-client record stored in
`m_mapClientData`. -/
structure ClientConnectionData where
  m_steamID : Nat
  m_hConnection : Nat
  m_eAuthState : EAuthState
  m_authTicketData : List Nat
  deriving DecidableEq

/-- The default-constructed `ClientConnectionData_t` (constructor in
`server.h`): pending auth state, invalid connection handle, invalid SteamID. -/
def ClientConnectionData.init : ClientConnectionData :=
  { m_steamID := 0
    m_hConnection := k_HSteamNetConnection_Invalid
    m_eAuthState := EAuthState.AUTH_PENDING
    m_authTicketData := [] }

/-- The server registry `m_mapClientData`, embedded as an association list from
connection handle to record (one fixed iteration order of the
`unordered_map`). -/
abbrev Registry := List (Nat × ClientConnectionData)

/-- Lookup of `m_mapClientData[hConn]` / `m_mapClientData.count(hConn)`. -/
def lookupConn : Registry → Nat → Option ClientConnectionData
  | [], _ => none
  | p :: rest, k => if p.1 = k then some p.2 else lookupConn rest k

/-- Map write `m_mapClientData[hConn] = v`: replaces the entry if the key is
present, appends it otherwise. -/
def upsertConn : Registry → Nat → ClientConnectionData → Registry
  | [], k, v => [(k, v)]
  | p :: rest, k, v => if p.1 = k then (k, v) :: rest else p :: upsertConn rest k v

/-- Map removal `m_mapClientData.erase(hConn)`. -/
def eraseConn : Registry → Nat → Registry
  | [], _ => []
  | p :: rest, k => if p.1 = k then eraseConn rest k else p :: eraseConn rest k

/-- `ManualNetToHost32` from `server.cpp`: reads the first four bytes of the
payload as a big-endian 32-bit value, `(b0 << 24) | (b1 << 16) | (b2 << 8) | b3`. -/
def ManualNetToHost32 (network_bytes_in : List Nat) : Nat :=
  ((network_bytes_in.getD 0 0) <<< 24) |||
    ((network_bytes_in.getD 1 0) <<< 16) |||
    ((network_bytes_in.getD 2 0) <<< 8) |||
    (network_bytes_in.getD 3 0)

/-- `ManualHostToNet32` from `client.cpp`: writes a 32-bit value as four
big-endian bytes, each `(host_value >> s) & 0xFF`. -/
def ManualHostToNet32 (host_value : Nat) : List Nat :=
  [(host_value >>> 24) &&& 0xFF,
   (host_value >>> 16) &&& 0xFF,
   (host_value >>> 8) &&& 0xFF,
   host_value &&& 0xFF]

/-- Observable effects the server handlers perform, in source order: Steam
networking calls, outbound sends, Identity Service (ISteamGameServer auth)
calls, and log lines. `appProcess` marks the application-payload processing
block of `ProcessMessageFromClient` (the block that interprets the payload as
an application string once the sender is validated). -/
inductive Effect
  | acceptConnection (hConn : Nat)
  | setConnectionPollGroup (hConn : Nat)
  | closeConnection (hConn : Nat) (reason : String)
  | sendMessageToClient (hConn : Nat) (msg : String)
  | beginAuthSession (steamID : Nat) (ticket : List Nat)
  | endAuthSession (steamID : Nat)
  | logWarn (tag : String)
  | logInfo (tag : String)
  | appProcess (hConn : Nat) (data : List Nat)
  deriving DecidableEq

/-- Byte sequence of an ASCII protocol string, for comparing a raw payload
with a literal as `std::string(data, size) == "..."` does. -/
def stringBytes (s : String) : List Nat :=
  s.toList.map Char.toNat

/-- Modelled from the spec: the body elided as `// ... (rest of the logic) ...`
in the well-formed branch of `Server::ProcessMessageFromClient`, which hands
the stored ticket bytes to the Identity Service for asynchronous validation
keyed by the previously learned peer identity
(`BeginAuthSession(ticket, steamID)`). -/
def handTicketToIdentity (steamID : Nat) (ticket : List Nat) : List Effect :=
  [Effect.beginAuthSession steamID ticket]

/-- Tail of `Server::ProcessMessageFromClient` (after the auth-ticket parsing
block): routes by the record's current auth state — application processing for
`AUTH_VALIDATED` (echoing `SERVER_SAYS_HI_CLIENT` on `HELLO_SERVER`), a warning
for `AUTH_FAILED`, and an informational "not yet validated" log otherwise. -/
def afterTicketPhase (hConn : Nat) (data : List Nat) (cd : ClientConnectionData) :
    List Effect :=
  if cd.m_eAuthState = EAuthState.AUTH_VALIDATED then
    Effect.appProcess hConn data ::
      (if data = stringBytes "HELLO_SERVER" then
        [Effect.sendMessageToClient hConn "SERVER_SAYS_HI_CLIENT"]
      else [])
  else if cd.m_eAuthState = EAuthState.AUTH_FAILED then
    [Effect.logWarn "message-from-auth-failed-client-ignoring"]
  else
    [Effect.logInfo "message-but-auth-not-yet-validated"]

/-- `Server::ProcessMessageFromClient` from `server.cpp`. While the record is
in `AUTH_PENDING` or `AUTH_TICKET_RECEIVED` the payload is parsed as a
length-prefixed auth-ticket frame: the message must be strictly longer than
four bytes, the big-endian length read by `ManualNetToHost32` must be positive,
and the total size must equal `4 + ticketDataSize`; on success the ticket bytes
are stored, the state becomes `AUTH_TICKET_RECEIVED`, and the ticket is handed
to the Identity Service; otherwise the message is discarded with a warning and
the function returns early. (In the source the size check is
`size == sizeof(uint32) + ticketDataSize` in `uint32` arithmetic; since the
branch requires `size > 4` and `size < 2^32`, the wrapped and unwrapped
comparisons agree.) -/
def ProcessMessageFromClient (reg : Registry) (hConn : Nat) (data : List Nat) :
    Registry × List Effect :=
  match lookupConn reg hConn with
  | none => (reg, [Effect.logWarn "message-from-unknown-connection"])
  | some clientData =>
    if clientData.m_eAuthState = EAuthState.AUTH_PENDING ∨
        clientData.m_eAuthState = EAuthState.AUTH_TICKET_RECEIVED then
      if data.length > 4 then
        let ticketDataSize := ManualNetToHost32 data
        if ticketDataSize > 0 ∧ data.length = 4 + ticketDataSize then
          let cd1 : ClientConnectionData :=
            { clientData with
                m_authTicketData := data.drop 4
                m_eAuthState := EAuthState.AUTH_TICKET_RECEIVED }
          (upsertConn reg hConn cd1,
            handTicketToIdentity clientData.m_steamID (data.drop 4) ++
              afterTicketPhase hConn data cd1)
        else
          (reg, [Effect.logWarn "malformed-auth-ticket-message"])
      else
        (reg, [Effect.logWarn "very-small-message-when-expecting-auth-ticket"])
    else
      (reg, afterTicketPhase hConn data clientData)

/-- `Server::HandleClientDisconnection` from `server.cpp`: if the record is
present, end the Identity Service auth session when the client was
`AUTH_VALIDATED` with a valid SteamID, close the transport connection, and
erase the record from the registry. -/
def HandleClientDisconnection (reg : Registry) (hConn : Nat) :
    Registry × List Effect :=
  match lookupConn reg hConn with
  | some clientData =>
    let authEffs :=
      if clientData.m_eAuthState = EAuthState.AUTH_VALIDATED ∧
          clientData.m_steamID ≠ 0 then
        [Effect.endAuthSession clientData.m_steamID]
      else []
    (eraseConn reg hConn,
      authEffs ++ [Effect.closeConnection hConn "disconnect-cleanup"])
  | none => (reg, [])

/-- `ESteamNetworkingConnectionState` values the server handler inspects. -/
inductive ConnState
  | StateNone
  | Connecting
  | FindingRoute
  | Connected
  | ClosedByPeer
  | ProblemDetectedLocally
  deriving DecidableEq

/-- `Server::OnSteamNetConnectionStatusChanged` from `server.cpp`.
Environment inputs that the real SDK supplies are explicit arguments:
`fromOurListenSocket` is `info.m_hListenSocket == m_hListenSocket`,
`identityRemote` the peer SteamID from `info.m_identityRemote` (`0` when
`IsInvalid()`), `acceptResultOK` the result of `AcceptConnection`, and
`pollGroupOK` the result of `SetConnectionPollGroup`. -/
def OnSteamNetConnectionStatusChanged (reg : Registry) (hConn : Nat)
    (eOldState eNewState : ConnState) (fromOurListenSocket : Bool)
    (identityRemote : Nat) (acceptResultOK pollGroupOK : Bool) :
    Registry × List Effect :=
  if eOldState = ConnState.StateNone ∧ eNewState = ConnState.Connecting then
    if fromOurListenSocket then
      if reg.length ≥ 100 then
        (reg, [Effect.logWarn "max-clients-reached-rejecting",
               Effect.closeConnection hConn "Server full"])
      else if acceptResultOK then
        (upsertConn reg hConn { ClientConnectionData.init with m_hConnection := hConn },
          Effect.acceptConnection hConn ::
            Effect.setConnectionPollGroup hConn ::
              (if pollGroupOK then [] else [Effect.logWarn "failed-to-add-to-poll-group"]))
      else
        (reg, [Effect.acceptConnection hConn,
               Effect.logWarn "failed-to-accept-connection",
               Effect.closeConnection hConn "Accept failed"])
    else
      (reg, [Effect.logWarn "not-from-our-listen-socket-ignoring"])
  else if eNewState = ConnState.Connected then
    match lookupConn reg hConn with
    | some cd =>
      if identityRemote ≠ 0 then
        (upsertConn reg hConn { cd with m_steamID := identityRemote },
          [Effect.logInfo "fully-connected-waiting-for-auth-ticket",
           Effect.sendMessageToClient hConn "WELCOME_SEND_AUTH_TICKET"])
      else
        (eraseConn reg hConn,
          [Effect.logWarn "connected-but-invalid-remote-identity",
           Effect.closeConnection hConn "Invalid identity"])
    | none => (reg, [Effect.logWarn "connected-but-not-in-map"])
  else if eNewState = ConnState.ClosedByPeer ∨
      eNewState = ConnState.ProblemDetectedLocally then
    match lookupConn reg hConn with
    | some _ => HandleClientDisconnection reg hConn
    | none => (reg, [])
  else
    (reg, [])

/-- The linear scan of `m_mapClientData` in
`Server::OnValidateAuthTicketResponse`: first entry whose SteamID equals the
callback's `m_SteamID` and whose state is `AUTH_TICKET_RECEIVED`. -/
def findTicketReceivedConn : Registry → Nat → Option (Nat × ClientConnectionData)
  | [], _ => none
  | p :: rest, sid =>
    if p.2.m_steamID = sid ∧ p.2.m_eAuthState = EAuthState.AUTH_TICKET_RECEIVED then
      some p
    else findTicketReceivedConn rest sid

/-- `Server::OnValidateAuthTicketResponse` from `server.cpp`: on a matching
`AUTH_TICKET_RECEIVED` record, success marks it `AUTH_VALIDATED` and sends an
`AUTH_SUCCESSFUL` message (with a warning when the owner SteamID differs from
the connecting SteamID), while failure marks it `AUTH_FAILED`, sends
`AUTH_FAILED_VALIDATION` and closes the connection; with no matching record
the registry is untouched, a warning is logged, and on a non-OK response
`EndAuthSession` is called for the callback's SteamID. -/
def OnValidateAuthTicketResponse (reg : Registry) (cbSteamID : Nat)
    (eAuthSessionResponse : Nat) (ownerSteamID : Nat) :
    Registry × List Effect :=
  let base := [Effect.logInfo "validate-auth-ticket-response-received"]
  match findTicketReceivedConn reg cbSteamID with
  | some found =>
    let hFoundConn := found.1
    let clientData := found.2
    if eAuthSessionResponse = k_EAuthSessionResponseOK then
      let cd1 := { clientData with m_eAuthState := EAuthState.AUTH_VALIDATED }
      if cbSteamID = ownerSteamID then
        (upsertConn reg hFoundConn cd1,
          base ++ [Effect.logInfo "auth-validated-owner-matches",
                   Effect.sendMessageToClient hFoundConn "AUTH_SUCCESSFUL_WELCOME_PLAYER"])
      else
        (upsertConn reg hFoundConn cd1,
          base ++ [Effect.logWarn "auth-validated-owner-mismatch-treating-as-valid",
                   Effect.sendMessageToClient hFoundConn
                     "AUTH_SUCCESSFUL_WELCOME_PLAYER (owner mismatch noted)"])
    else
      (upsertConn reg hFoundConn { clientData with m_eAuthState := EAuthState.AUTH_FAILED },
        base ++ [Effect.logWarn "auth-failed-disconnecting",
                 Effect.sendMessageToClient hFoundConn "AUTH_FAILED_VALIDATION",
                 Effect.closeConnection hFoundConn "Auth validation failed"])
  | none =>
    (reg,
      base ++ Effect.logWarn "no-matching-client-in-ticket-received-state" ::
        (if eAuthSessionResponse ≠ k_EAuthSessionResponseOK then
          [Effect.endAuthSession cbSteamID,
           Effect.logInfo "end-auth-session-for-untracked-late-response"]
        else []))

/-- Effect list of the shutdown loop in `Server::ShutdownSteam`: per record,
`EndAuthSession` when `AUTH_VALIDATED`, then `CloseConnection`. -/
def shutdownEffects : Registry → List Effect
  | [] => []
  | p :: rest =>
    (if p.2.m_eAuthState = EAuthState.AUTH_VALIDATED then
      [Effect.endAuthSession p.2.m_steamID]
    else []) ++
      Effect.closeConnection p.1 "Server shutting down" :: shutdownEffects rest

/-- Registry-relevant part of `Server::ShutdownSteam`: ends auth sessions of
validated clients, closes every connection, and clears `m_mapClientData`. -/
def ShutdownSteam (reg : Registry) : Registry × List Effect :=
  ([], shutdownEffects reg)

/-- One asynchronous input to the server's per-registry event loop: a
transport connection-status change, an Identity Service validation response,
or an inbound message from a client connection. -/
inductive ServerEvent
  | statusChanged (hConn : Nat) (eOldState eNewState : ConnState)
      (fromOurListenSocket : Bool) (identityRemote : Nat)
      (acceptResultOK pollGroupOK : Bool)
  | validateTicket (cbSteamID : Nat) (eAuthSessionResponse : Nat) (ownerSteamID : Nat)
  | clientMessage (hConn : Nat) (data : List Nat)
  deriving DecidableEq

/-- Dispatch of one event to the corresponding server handler (all three run
under the single `m_mutexClientData` lock in the source, so events are
serialized). -/
def serverStep (reg : Registry) : ServerEvent → Registry × List Effect
  | ServerEvent.statusChanged h o n ls idr a p =>
    OnSteamNetConnectionStatusChanged reg h o n ls idr a p
  | ServerEvent.validateTicket sid resp owner =>
    OnValidateAuthTicketResponse reg sid resp owner
  | ServerEvent.clientMessage h d => ProcessMessageFromClient reg h d

/-- Run of the server over a sequence of events, collecting effects in order. -/
def serverRun : Registry → List ServerEvent → Registry × List Effect
  | reg, [] => (reg, [])
  | reg, e :: es =>
    let step := serverStep reg e
    let rest := serverRun step.1 es
    (rest.1, step.2 ++ rest.2)

/-- Framing condition under which `Server::ProcessMessageFromClient` accepts a
ticket frame: more than four bytes total, a positive declared length, and a
total size of exactly four plus the declared length. -/
def wellFormedTicketFrame (data : List Nat) : Prop :=
  data.length > 4 ∧ ManualNetToHost32 data > 0 ∧
    data.length = 4 + ManualNetToHost32 data

instance (data : List Nat) : Decidable (wellFormedTicketFrame data) := by
  unfold wellFormedTicketFrame; infer_instance

/-- The client's success check in `Client::ProcessMessage`:
`message.rfind("AUTH_SUCCESSFUL", 0) == 0`, i.e. the message starts with the
tag `AUTH_SUCCESSFUL`. -/
def isAuthSuccessfulMsg (msg : String) : Bool :=
  List.isPrefixOf ("AUTH_SUCCESSFUL".toList) msg.toList

/-- State of the `Client` class from `client.h` that `Client::Connect` reads
or writes: the connection handle, whether `m_pInterface` is non-null, and the
connection/authentication flags. -/
structure Client where
  m_hConnection : Nat
  m_interfaceInitialized : Bool
  m_bConnected : Bool
  m_bAttemptingConnection : Bool
  m_bAuthenticated : Bool
  deriving DecidableEq

/-- `Client::Connect` from `client.cpp`. Environment inputs:
`addrParseOK` is the result of `SteamNetworkingIPAddr::ParseString` and
`connectResult` the handle returned by `ConnectByIPAddress`
(`k_HSteamNetConnection_Invalid` on failure). Returns the updated client state
and the boolean result. -/
def Client.Connect (c : Client) (addrParseOK : Bool) (connectResult : Nat) :
    Client × Bool :=
  if ¬ c.m_interfaceInitialized ∨ c.m_bConnected ∨ c.m_bAttemptingConnection then
    (c, false)
  else if ¬ addrParseOK then
    (c, false)
  else
    let c1 := { c with m_hConnection := connectResult }
    if connectResult = k_HSteamNetConnection_Invalid then
      (c1, false)
    else
      ({ c1 with m_bAttemptingConnection := true }, true)

/-- The length-prefixed ticket frame built in the `WELCOME` branch of
`Client::ProcessMessage`: a buffer of `4 + m_unAuthTicketSize` bytes holding
the big-endian ticket length followed by the ticket bytes. -/
def buildTicketFrame (ticket : List Nat) : List Nat :=
  ManualHostToNet32 ticket.length ++ ticket

section RegistryLemmas

theorem lookupConn_upsert_self (reg : Registry) (k : Nat) (v : ClientConnectionData) :
    lookupConn (upsertConn reg k v) k = some v := by
  induction reg with
  | nil => simp [upsertConn, lookupConn]
  | cons p rest ih =>
    by_cases h : p.1 = k
    · simp [upsertConn, lookupConn, h]
    · simp [upsertConn, lookupConn, h, ih]

theorem lookupConn_upsert_ne (reg : Registry) (k : Nat) (v : ClientConnectionData)
    (k2 : Nat) (h : k2 ≠ k) :
    lookupConn (upsertConn reg k v) k2 = lookupConn reg k2 := by
  induction reg with
  | nil => simp [upsertConn, lookupConn, Ne.symm h]
  | cons p rest ih =>
    by_cases hp : p.1 = k
    · subst hp
      simp [upsertConn, lookupConn, Ne.symm h]
    · by_cases hp2 : p.1 = k2
      · simp [upsertConn, lookupConn, hp, hp2, h]
      · simp [upsertConn, lookupConn, hp, hp2, ih]

theorem lookupConn_erase_self (reg : Registry) (k : Nat) :
    lookupConn (eraseConn reg k) k = none := by
  induction reg with
  | nil => simp [eraseConn, lookupConn]
  | cons p rest ih =>
    by_cases h : p.1 = k
    · simp [eraseConn, h, ih]
    · simp [eraseConn, lookupConn, h, ih]

theorem lookupConn_erase_ne (reg : Registry) (k k2 : Nat) (h : k2 ≠ k) :
    lookupConn (eraseConn reg k) k2 = lookupConn reg k2 := by
  induction reg with
  | nil => simp [eraseConn, lookupConn]
  | cons p rest ih =>
    by_cases hp : p.1 = k
    · subst hp
      simp [eraseConn, lookupConn, Ne.symm h, ih]
    · simp [eraseConn, lookupConn, hp, ih]

theorem lookupConn_mem {reg : Registry} {k : Nat} {v : ClientConnectionData}
    (h : lookupConn reg k = some v) : (k, v) ∈ reg := by
  induction reg with
  | nil => simp [lookupConn] at h
  | cons p rest ih =>
    by_cases hp : p.1 = k
    · simp only [lookupConn, hp, if_pos] at h
      cases h
      obtain ⟨p1, p2⟩ := p
      cases hp
      exact List.mem_cons_self _ _
    · simp only [lookupConn, hp, if_neg, not_false_iff] at h
      exact List.mem_cons_of_mem _ (ih h)

theorem mem_upsert {reg : Registry} {k : Nat} {v : ClientConnectionData}
    {p : Nat × ClientConnectionData} (h : p ∈ upsertConn reg k v) :
    p = (k, v) ∨ p ∈ reg := by
  induction reg with
  | nil =>
    simp only [upsertConn, List.mem_singleton] at h
    exact Or.inl h
  | cons q rest ih =>
    by_cases hq : q.1 = k
    · simp only [upsertConn, hq, if_pos] at h
      rcases List.mem_cons.mp h with h1 | h1
      · exact Or.inl h1
      · exact Or.inr (List.mem_cons_of_mem _ h1)
    · simp only [upsertConn, hq, if_neg, not_false_iff] at h
      rcases List.mem_cons.mp h with h1 | h1
      · exact Or.inr (h1 ▸ List.mem_cons_self _ _)
      · rcases ih h1 with h2 | h2
        · exact Or.inl h2
        · exact Or.inr (List.mem_cons_of_mem _ h2)

theorem mem_erase {reg : Registry} {k : Nat} {p : Nat × ClientConnectionData}
    (h : p ∈ eraseConn reg k) : p ∈ reg := by
  induction reg with
  | nil => simp [eraseConn] at h
  | cons q rest ih =>
    by_cases hq : q.1 = k
    · simp only [eraseConn, hq, if_pos] at h
      exact List.mem_cons_of_mem _ (ih h)
    · simp only [eraseConn, hq, if_neg, not_false_iff] at h
      rcases List.mem_cons.mp h with h1 | h1
      · exact h1 ▸ List.mem_cons_self _ _
      · exact List.mem_cons_of_mem _ (ih h1)

theorem findTicketReceivedConn_some {reg : Registry} {sid : Nat}
    {p : Nat × ClientConnectionData} (h : findTicketReceivedConn reg sid = some p) :
    p ∈ reg ∧ p.2.m_steamID = sid ∧ p.2.m_eAuthState = EAuthState.AUTH_TICKET_RECEIVED := by
  induction reg with
  | nil => simp [findTicketReceivedConn] at h
  | cons q rest ih =>
    by_cases hq : q.2.m_steamID = sid ∧ q.2.m_eAuthState = EAuthState.AUTH_TICKET_RECEIVED
    · simp only [findTicketReceivedConn, if_pos hq] at h
      cases h
      exact ⟨List.mem_cons_self _ _, hq⟩
    · simp only [findTicketReceivedConn, if_neg hq] at h
      rcases ih h with ⟨h1, h2⟩
      exact ⟨List.mem_cons_of_mem _ h1, h2⟩

theorem findTicketReceivedConn_eq_none {reg : Registry} {sid : Nat}
    (h : ∀ p ∈ reg, ¬(p.2.m_steamID = sid ∧
      p.2.m_eAuthState = EAuthState.AUTH_TICKET_RECEIVED)) :
    findTicketReceivedConn reg sid = none := by
  induction reg with
  | nil => simp [findTicketReceivedConn]
  | cons q rest ih =>
    have hq := h q (List.mem_cons_self _ _)
    simp only [findTicketReceivedConn, if_neg hq]
    exact ih fun p hp => h p (List.mem_cons_of_mem _ hp)

end RegistryLemmas

section ByteOrderLemmas

theorem and_255_eq_mod (x : Nat) : x &&& 0xFF = x % 256 := by
  have h : (0xFF : Nat) = 2 ^ 8 - 1 := by norm_num
  rw [h, Nat.and_pow_two_sub_one_eq_mod]

theorem lor_eq_add_of_dvd {a b : Nat} (i : Nat) (ha : 2 ^ i ∣ a) (hb : b < 2 ^ i) :
    a ||| b = a + b := by
  obtain ⟨c, hc⟩ := ha
  subst hc
  exact (Nat.mul_add_lt_is_or hb c).symm

theorem lor_eq_add_16777216 {a b : Nat} (ha : 16777216 ∣ a) (hb : b < 16777216) :
    a ||| b = a + b := by
  have h : (16777216 : Nat) = 2 ^ 24 := by norm_num
  exact lor_eq_add_of_dvd 24 (h ▸ ha) (h ▸ hb)

theorem lor_eq_add_65536 {a b : Nat} (ha : 65536 ∣ a) (hb : b < 65536) :
    a ||| b = a + b := by
  have h : (65536 : Nat) = 2 ^ 16 := by norm_num
  exact lor_eq_add_of_dvd 16 (h ▸ ha) (h ▸ hb)

theorem lor_eq_add_256 {a b : Nat} (ha : 256 ∣ a) (hb : b < 256) :
    a ||| b = a + b := by
  have h : (256 : Nat) = 2 ^ 8 := by norm_num
  exact lor_eq_add_of_dvd 8 (h ▸ ha) (h ▸ hb)

theorem ManualNetToHost32_roundtrip (v : Nat) (hv : v < 2 ^ 32) :
    ManualNetToHost32 (ManualHostToNet32 v) = v := by
  show ((v >>> 24 &&& 0xFF) <<< 24) ||| ((v >>> 16 &&& 0xFF) <<< 16) |||
      ((v >>> 8 &&& 0xFF) <<< 8) ||| (v &&& 0xFF) = v
  rw [and_255_eq_mod, and_255_eq_mod, and_255_eq_mod, and_255_eq_mod,
    Nat.shiftRight_eq_div_pow, Nat.shiftRight_eq_div_pow, Nat.shiftRight_eq_div_pow,
    Nat.shiftLeft_eq, Nat.shiftLeft_eq, Nat.shiftLeft_eq]
  have e8 : (2 : Nat) ^ 8 = 256 := by norm_num
  have e16 : (2 : Nat) ^ 16 = 65536 := by norm_num
  have e24 : (2 : Nat) ^ 24 = 16777216 := by norm_num
  rw [e8, e16, e24]
  have hb1 : v / 65536 % 256 * 65536 < 16777216 := by
    have := Nat.mod_lt (v / 65536) (show 0 < 256 by norm_num)
    omega
  have hb2 : v / 256 % 256 * 256 < 65536 := by
    have := Nat.mod_lt (v / 256) (show 0 < 256 by norm_num)
    omega
  have hb3 : v % 256 < 256 := Nat.mod_lt _ (by norm_num)
  have d1 : (65536 : Nat) ∣ 16777216 := by norm_num
  have d2 : (256 : Nat) ∣ 16777216 := by norm_num
  have d3 : (256 : Nat) ∣ 65536 := by norm_num
  rw [lor_eq_add_16777216 (dvd_mul_left _ _) hb1,
    lor_eq_add_65536 (dvd_add (Dvd.dvd.mul_left d1 _) (dvd_mul_left _ _)) hb2,
    lor_eq_add_256
      (dvd_add (dvd_add (Dvd.dvd.mul_left d2 _) (Dvd.dvd.mul_left d3 _)) (dvd_mul_left _ _))
      hb3]
  have h32 : v < 4294967296 := by
    have e32 : (2 : Nat) ^ 32 = 4294967296 := by norm_num
    omega
  omega

end ByteOrderLemmas

section ParseLemmas

/-- In `AUTH_PENDING` or `AUTH_TICKET_RECEIVED`, a well-formed frame is
accepted: ticket stored, state set to `AUTH_TICKET_RECEIVED`, ticket handed to
the Identity Service, and the tail phase logs "not yet validated". -/
theorem processMessage_accepts {reg : Registry} {hConn : Nat}
    {cd : ClientConnectionData} {data : List Nat}
    (hl : lookupConn reg hConn = some cd)
    (hs : cd.m_eAuthState = EAuthState.AUTH_PENDING ∨
      cd.m_eAuthState = EAuthState.AUTH_TICKET_RECEIVED)
    (hwf : wellFormedTicketFrame data) :
    ProcessMessageFromClient reg hConn data =
      (upsertConn reg hConn
        { cd with
            m_authTicketData := data.drop 4
            m_eAuthState := EAuthState.AUTH_TICKET_RECEIVED },
       [Effect.beginAuthSession cd.m_steamID (data.drop 4),
        Effect.logInfo "message-but-auth-not-yet-validated"]) := by
  obtain ⟨h1, h2, h3⟩ := hwf
  rcases hs with hs | hs <;>
    simp [ProcessMessageFromClient, hl, hs, h1, h2, h3, handTicketToIdentity,
      afterTicketPhase]

/-- In `AUTH_PENDING` or `AUTH_TICKET_RECEIVED`, a frame that is not
well-formed is discarded: registry unchanged, nothing handed to the Identity
Service, and a warning logged. -/
theorem processMessage_rejects {reg : Registry} {hConn : Nat}
    {cd : ClientConnectionData} {data : List Nat}
    (hl : lookupConn reg hConn = some cd)
    (hs : cd.m_eAuthState = EAuthState.AUTH_PENDING ∨
      cd.m_eAuthState = EAuthState.AUTH_TICKET_RECEIVED)
    (hbad : ¬ wellFormedTicketFrame data) :
    (ProcessMessageFromClient reg hConn data).1 = reg ∧
    (∀ s t, Effect.beginAuthSession s t ∉ (ProcessMessageFromClient reg hConn data).2) ∧
    ∃ tag, Effect.logWarn tag ∈ (ProcessMessageFromClient reg hConn data).2 := by
  by_cases h1 : data.length > 4
  · have hc : ¬(ManualNetToHost32 data > 0 ∧ data.length = 4 + ManualNetToHost32 data) := by
      intro hc
      exact hbad ⟨h1, hc.1, hc.2⟩
    rcases hs with hs | hs <;>
      simp [ProcessMessageFromClient, hl, hs, h1, hc]
  · rcases hs with hs | hs <;>
      simp [ProcessMessageFromClient, hl, hs, h1]

end ParseLemmas

/-! ### Claim C9 -/

/-- C9: calling `Client::Connect` while the networking interface is
uninitialized, or while already connected, or while a connection attempt is in
progress, returns `false` and leaves the entire client state (handle and
flags) unchanged. -/
theorem C9_connect_guard (c : Client) (addrParseOK : Bool) (connectResult : Nat)
    (h : ¬ c.m_interfaceInitialized ∨ c.m_bConnected ∨ c.m_bAttemptingConnection) :
    Client.Connect c addrParseOK connectResult = (c, false) := by
  rcases h with h | h | h <;> simp [Client.Connect, h]

/-- Witness for C9: a client with an uninitialized interface, at concrete
arguments. -/
theorem C9_witness :
    Client.Connect
      { m_hConnection := 7, m_interfaceInitialized := false, m_bConnected := false,
        m_bAttemptingConnection := false, m_bAuthenticated := false } true 5 =
      ({ m_hConnection := 7, m_interfaceInitialized := false, m_bConnected := false,
         m_bAttemptingConnection := false, m_bAuthenticated := false }, false) :=
  C9_connect_guard _ true 5 (Or.inl (by decide))

/-! ### Claim C10 -/

/-- C10: a well-formed ticket frame received while the record is already in
`AUTH_TICKET_RECEIVED` is parsed again — the buffered ticket bytes are
replaced by the new frame's payload and the state stays
`AUTH_TICKET_RECEIVED`. -/
theorem C10_reticket (reg : Registry) (hConn : Nat) (cd : ClientConnectionData)
    (data : List Nat) (hl : lookupConn reg hConn = some cd)
    (hs : cd.m_eAuthState = EAuthState.AUTH_TICKET_RECEIVED)
    (hwf : wellFormedTicketFrame data) :
    lookupConn (ProcessMessageFromClient reg hConn data).1 hConn =
      some { cd with
              m_authTicketData := data.drop 4
              m_eAuthState := EAuthState.AUTH_TICKET_RECEIVED } ∧
    Effect.beginAuthSession cd.m_steamID (data.drop 4) ∈
      (ProcessMessageFromClient reg hConn data).2 := by
  rw [processMessage_accepts hl (Or.inr hs) hwf]
  constructor
  · exact lookupConn_upsert_self _ _ _
  · simp

/-- Witness for C10: a second well-formed frame at a connection already in
`AUTH_TICKET_RECEIVED` replaces the buffered ticket `[7]` with `[8]`. -/
theorem C10_witness :
    lookupConn
      (ProcessMessageFromClient
        [(1, { m_steamID := 42, m_hConnection := 1,
               m_eAuthState := EAuthState.AUTH_TICKET_RECEIVED,
               m_authTicketData := [7] })] 1 [0, 0, 0, 1, 8]).1 1 =
      some { m_steamID := 42, m_hConnection := 1,
             m_eAuthState := EAuthState.AUTH_TICKET_RECEIVED,
             m_authTicketData := [8] } ∧
    Effect.beginAuthSession 42 [8] ∈
      (ProcessMessageFromClient
        [(1, { m_steamID := 42, m_hConnection := 1,
               m_eAuthState := EAuthState.AUTH_TICKET_RECEIVED,
               m_authTicketData := [7] })] 1 [0, 0, 0, 1, 8]).2 :=
  C10_reticket
    [(1, { m_steamID := 42, m_hConnection := 1,
           m_eAuthState := EAuthState.AUTH_TICKET_RECEIVED,
           m_authTicketData := [7] })] 1
    { m_steamID := 42, m_hConnection := 1,
      m_eAuthState := EAuthState.AUTH_TICKET_RECEIVED,
      m_authTicketData := [7] } [0, 0, 0, 1, 8] (by decide) (by decide) (by decide)

/-! ### Claim C7 -/

/-- Decoding only reads the four prefix bytes, so appending the ticket after
the length prefix does not change the decoded length. -/
theorem ManualNetToHost32_prefix (v : Nat) (t : List Nat) :
    ManualNetToHost32 (ManualHostToNet32 v ++ t) =
      ManualNetToHost32 (ManualHostToNet32 v) := rfl

/-- C7: the client's big-endian writer and the server's big-endian reader are
mutually inverse on 32-bit lengths; a ticket of length `L` yields a frame of
`4 + L` bytes whose trailing `L` bytes are the ticket, and the server stores
exactly those bytes; a 10-byte ticket gives a 14-byte frame with prefix
`00 00 00 0A`. -/
theorem C7_framing (L : Nat) (hL : L < 2 ^ 32) (ticket : List Nat)
    (hlen : ticket.length = L) :
    ManualNetToHost32 (ManualHostToNet32 L) = L ∧
    (buildTicketFrame ticket).length = 4 + L ∧
    ManualNetToHost32 (buildTicketFrame ticket) = L ∧
    (buildTicketFrame ticket).drop 4 = ticket ∧
    (L = 10 → (buildTicketFrame ticket).length = 14 ∧
      (buildTicketFrame ticket).take 4 = [0, 0, 0, 10]) ∧
    (∀ reg hConn cd, lookupConn reg hConn = some cd →
      cd.m_eAuthState = EAuthState.AUTH_PENDING → 0 < L →
      lookupConn (ProcessMessageFromClient reg hConn (buildTicketFrame ticket)).1 hConn =
        some { cd with
                m_authTicketData := ticket
                m_eAuthState := EAuthState.AUTH_TICKET_RECEIVED }) := by
  subst hlen
  have hrt : ManualNetToHost32 (ManualHostToNet32 ticket.length) = ticket.length :=
    ManualNetToHost32_roundtrip ticket.length hL
  have hdec : ManualNetToHost32 (buildTicketFrame ticket) = ticket.length := by
    rw [buildTicketFrame, ManualNetToHost32_prefix, hrt]
  have hflen : (buildTicketFrame ticket).length = 4 + ticket.length := by
    simp [buildTicketFrame, ManualHostToNet32]
    omega
  have hdrop : (buildTicketFrame ticket).drop 4 = ticket := by
    simp [buildTicketFrame, ManualHostToNet32]
  refine ⟨hrt, hflen, hdec, hdrop, ?_, ?_⟩
  · intro h10
    constructor
    · rw [hflen, h10]
    · rw [buildTicketFrame, h10]
      show ManualHostToNet32 10 = [0, 0, 0, 10]
      decide
  · intro reg hConn cd hl hs hpos
    have hwf : wellFormedTicketFrame (buildTicketFrame ticket) :=
      ⟨by omega, by omega, by omega⟩
    rw [processMessage_accepts hl (Or.inl hs) hwf]
    rw [lookupConn_upsert_self, hdrop]

/-- Witness for C7: the concrete 10-byte ticket `[1,...,10]` in a registry
with one pending connection. -/
theorem C7_witness :
    ManualNetToHost32 (ManualHostToNet32 10) = 10 ∧
    (buildTicketFrame [1, 2, 3, 4, 5, 6, 7, 8, 9, 10]).length = 4 + 10 ∧
    ManualNetToHost32 (buildTicketFrame [1, 2, 3, 4, 5, 6, 7, 8, 9, 10]) = 10 ∧
    (buildTicketFrame [1, 2, 3, 4, 5, 6, 7, 8, 9, 10]).drop 4 =
      [1, 2, 3, 4, 5, 6, 7, 8, 9, 10] ∧
    (10 = 10 → (buildTicketFrame [1, 2, 3, 4, 5, 6, 7, 8, 9, 10]).length = 14 ∧
      (buildTicketFrame [1, 2, 3, 4, 5, 6, 7, 8, 9, 10]).take 4 = [0, 0, 0, 10]) ∧
    (∀ reg hConn cd, lookupConn reg hConn = some cd →
      cd.m_eAuthState = EAuthState.AUTH_PENDING → 0 < 10 →
      lookupConn
        (ProcessMessageFromClient reg hConn
          (buildTicketFrame [1, 2, 3, 4, 5, 6, 7, 8, 9, 10])).1 hConn =
        some { cd with
                m_authTicketData := [1, 2, 3, 4, 5, 6, 7, 8, 9, 10]
                m_eAuthState := EAuthState.AUTH_TICKET_RECEIVED }) :=
  C7_framing 10 (by norm_num) [1, 2, 3, 4, 5, 6, 7, 8, 9, 10] (by decide)

/-! ### Claim C1 -/

/-- Statement of claim C1 exactly as written: for a record in `AUTH_PENDING`
or `AUTH_TICKET_RECEIVED` and any frame of at least four bytes, if the
declared 4-byte big-endian length exactly matches the remaining payload bytes
the record transitions to `AUTH_TICKET_RECEIVED`, the ticket bytes are stored
and handed to the Identity Service; otherwise the frame is discarded with a
warning log, never handed to the Identity Service, and the registry is left
unchanged. -/
def ClaimC1 : Prop :=
  ∀ reg hConn data cd,
    lookupConn reg hConn = some cd →
    (cd.m_eAuthState = EAuthState.AUTH_PENDING ∨
      cd.m_eAuthState = EAuthState.AUTH_TICKET_RECEIVED) →
    4 ≤ data.length →
    (data.length = 4 + ManualNetToHost32 data →
      ∃ cd2, lookupConn (ProcessMessageFromClient reg hConn data).1 hConn = some cd2 ∧
        cd2.m_eAuthState = EAuthState.AUTH_TICKET_RECEIVED ∧
        cd2.m_authTicketData = data.drop 4 ∧
        Effect.beginAuthSession cd.m_steamID (data.drop 4) ∈
          (ProcessMessageFromClient reg hConn data).2) ∧
    (data.length ≠ 4 + ManualNetToHost32 data →
      (ProcessMessageFromClient reg hConn data).1 = reg ∧
      (∀ s t, Effect.beginAuthSession s t ∉ (ProcessMessageFromClient reg hConn data).2) ∧
      ∃ tag, Effect.logWarn tag ∈ (ProcessMessageFromClient reg hConn data).2)

/-- C1 as stated is false: the 4-byte frame `[0,0,0,0]` declares length `0`,
which exactly matches its zero remaining payload bytes, yet the code requires
`size > 4` and a positive declared length, so it discards the frame and the
record stays `AUTH_PENDING` with nothing handed to the Identity Service. -/
theorem C1_counterexample : ¬ ClaimC1 := by
  intro h
  obtain ⟨cd2, hcd2, hstate, -, -⟩ :=
    (h [(1, ClientConnectionData.init)] 1 [0, 0, 0, 0] ClientConnectionData.init
      (by decide) (Or.inl (by decide)) (by decide)).1 (by decide)
  have hR : lookupConn
      (ProcessMessageFromClient [(1, ClientConnectionData.init)] 1 [0, 0, 0, 0]).1 1 =
      some ClientConnectionData.init := by decide
  have hinj : ClientConnectionData.init = cd2 := by
    injection hR.symm.trans hcd2
  subst hinj
  exact absurd hstate (by decide)

/-- C1 amended: as claimed, except that acceptance additionally requires the
declared length to be positive (equivalently, the frame to be strictly longer
than four bytes); a frame whose declared length is zero is discarded even when
it exactly matches the zero remaining payload bytes. -/
theorem C1_amended (reg : Registry) (hConn : Nat) (data : List Nat)
    (cd : ClientConnectionData) (hl : lookupConn reg hConn = some cd)
    (hs : cd.m_eAuthState = EAuthState.AUTH_PENDING ∨
      cd.m_eAuthState = EAuthState.AUTH_TICKET_RECEIVED) :
    (wellFormedTicketFrame data →
      lookupConn (ProcessMessageFromClient reg hConn data).1 hConn =
        some { cd with
                m_authTicketData := data.drop 4
                m_eAuthState := EAuthState.AUTH_TICKET_RECEIVED } ∧
      Effect.beginAuthSession cd.m_steamID (data.drop 4) ∈
        (ProcessMessageFromClient reg hConn data).2) ∧
    (¬ wellFormedTicketFrame data →
      (ProcessMessageFromClient reg hConn data).1 = reg ∧
      (∀ s t, Effect.beginAuthSession s t ∉ (ProcessMessageFromClient reg hConn data).2) ∧
      ∃ tag, Effect.logWarn tag ∈ (ProcessMessageFromClient reg hConn data).2) := by
  constructor
  · intro hwf
    rw [processMessage_accepts hl hs hwf]
    refine ⟨lookupConn_upsert_self _ _ _, ?_⟩
    simp
  · intro hbad
    exact processMessage_rejects hl hs hbad

/-- Witness for C1 (amended): a well-formed frame `[0,0,0,2,5,6]` for a
pending record is accepted and handed over, while the malformed frame
`[0,0,0,9,5]` is rejected with the registry unchanged. -/
theorem C1_witness :
    (lookupConn
      (ProcessMessageFromClient [(1, ClientConnectionData.init)] 1 [0, 0, 0, 2, 5, 6]).1 1 =
      some { ClientConnectionData.init with
              m_authTicketData := [5, 6]
              m_eAuthState := EAuthState.AUTH_TICKET_RECEIVED } ∧
     Effect.beginAuthSession 0 [5, 6] ∈
      (ProcessMessageFromClient [(1, ClientConnectionData.init)] 1 [0, 0, 0, 2, 5, 6]).2) ∧
    ((ProcessMessageFromClient [(1, ClientConnectionData.init)] 1 [0, 0, 0, 9, 5]).1 =
      [(1, ClientConnectionData.init)] ∧
     (∀ s t, Effect.beginAuthSession s t ∉
      (ProcessMessageFromClient [(1, ClientConnectionData.init)] 1 [0, 0, 0, 9, 5]).2) ∧
     ∃ tag, Effect.logWarn tag ∈
      (ProcessMessageFromClient [(1, ClientConnectionData.init)] 1 [0, 0, 0, 9, 5]).2) :=
  ⟨(C1_amended [(1, ClientConnectionData.init)] 1 [0, 0, 0, 2, 5, 6]
      ClientConnectionData.init (by decide) (Or.inl (by decide))).1 (by decide),
   (C1_amended [(1, ClientConnectionData.init)] 1 [0, 0, 0, 9, 5]
      ClientConnectionData.init (by decide) (Or.inl (by decide))).2 (by decide)⟩

/-! ### Claim C5 -/

/-- The application-processing marker appears in the routing tail only for a
record in `AUTH_VALIDATED`, and only for this connection and payload. -/
theorem appProcess_mem_afterTicketPhase {hConn : Nat} {data : List Nat}
    {cd : ClientConnectionData} {h : Nat} {d : List Nat}
    (hm : Effect.appProcess h d ∈ afterTicketPhase hConn data cd) :
    cd.m_eAuthState = EAuthState.AUTH_VALIDATED ∧ h = hConn ∧ d = data := by
  by_cases h1 : cd.m_eAuthState = EAuthState.AUTH_VALIDATED
  · simp only [afterTicketPhase, if_pos h1] at hm
    rcases List.mem_cons.mp hm with he | he
    · simp only [Effect.appProcess.injEq] at he
      exact ⟨h1, he.1, he.2⟩
    · by_cases h2 : data = stringBytes "HELLO_SERVER" <;> simp [h2] at he
  · by_cases h2 : cd.m_eAuthState = EAuthState.AUTH_FAILED <;>
      simp [afterTicketPhase, h1, h2] at hm

/-- C5: a payload from a connection whose record is not `AUTH_VALIDATED` is
never processed as application data, and conversely any application
processing that happens is of the full payload of a connection whose record
was `AUTH_VALIDATED` when the message arrived. -/
theorem C5_app_only_validated :
    (∀ reg hConn data cd, lookupConn reg hConn = some cd →
      cd.m_eAuthState ≠ EAuthState.AUTH_VALIDATED →
      ∀ h d, Effect.appProcess h d ∉ (ProcessMessageFromClient reg hConn data).2) ∧
    (∀ reg hConn data h d,
      Effect.appProcess h d ∈ (ProcessMessageFromClient reg hConn data).2 →
      ∃ cd, lookupConn reg hConn = some cd ∧
        cd.m_eAuthState = EAuthState.AUTH_VALIDATED ∧ h = hConn ∧ d = data) := by
  have main : ∀ reg hConn data h d,
      Effect.appProcess h d ∈ (ProcessMessageFromClient reg hConn data).2 →
      ∃ cd, lookupConn reg hConn = some cd ∧
        cd.m_eAuthState = EAuthState.AUTH_VALIDATED ∧ h = hConn ∧ d = data := by
    intro reg hConn data h d hm
    cases hl : lookupConn reg hConn with
    | none => simp [ProcessMessageFromClient, hl] at hm
    | some cd =>
      by_cases hs : cd.m_eAuthState = EAuthState.AUTH_PENDING ∨
          cd.m_eAuthState = EAuthState.AUTH_TICKET_RECEIVED
      · by_cases hwf : wellFormedTicketFrame data
        · rw [processMessage_accepts hl hs hwf] at hm
          simp at hm
        · obtain ⟨-, hnob, -⟩ := processMessage_rejects hl hs hwf
          by_cases h1 : data.length > 4
          · have hc : ¬(ManualNetToHost32 data > 0 ∧
                data.length = 4 + ManualNetToHost32 data) := by
              intro hc
              exact hwf ⟨h1, hc.1, hc.2⟩
            rcases hs with hs | hs <;>
              simp [ProcessMessageFromClient, hl, hs, h1, hc] at hm
          · rcases hs with hs | hs <;>
              simp [ProcessMessageFromClient, hl, hs, h1] at hm
      · have hs2 : ¬(cd.m_eAuthState = EAuthState.AUTH_PENDING ∨
            cd.m_eAuthState = EAuthState.AUTH_TICKET_RECEIVED) := hs
        simp only [ProcessMessageFromClient, hl, if_neg hs2] at hm
        obtain ⟨hv, hh, hd⟩ := appProcess_mem_afterTicketPhase hm
        exact ⟨cd, rfl, hv, hh, hd⟩
  constructor
  · intro reg hConn data cd hl hnv h d hm
    obtain ⟨cd2, hl2, hv2, -, -⟩ := main reg hConn data h d hm
    rw [hl] at hl2
    injection hl2 with he
    exact hnv (he ▸ hv2)
  · exact main

/-- Witness for C5: a message from a pending connection produces no
application processing, and the trivial route through the converse
direction. -/
theorem C5_witness :
    ∀ h d, Effect.appProcess h d ∉
      (ProcessMessageFromClient [(1, ClientConnectionData.init)] 1 [9, 9]).2 :=
  C5_app_only_validated.1 [(1, ClientConnectionData.init)] 1 [9, 9]
    ClientConnectionData.init (by decide) (by decide)

/-! ### Claim C6 -/

/-- C6: a validation response for an identity with no record currently in
`AUTH_TICKET_RECEIVED` mutates no registry entry, is logged, and ends the
Identity Service session for that identity exactly when the response
indicates failure. -/
theorem C6_unmatched_response (reg : Registry) (sid resp owner : Nat)
    (hnone : ∀ p ∈ reg, ¬(p.2.m_steamID = sid ∧
      p.2.m_eAuthState = EAuthState.AUTH_TICKET_RECEIVED)) :
    (OnValidateAuthTicketResponse reg sid resp owner).1 = reg ∧
    Effect.logWarn "no-matching-client-in-ticket-received-state" ∈
      (OnValidateAuthTicketResponse reg sid resp owner).2 ∧
    (resp ≠ k_EAuthSessionResponseOK →
      Effect.endAuthSession sid ∈ (OnValidateAuthTicketResponse reg sid resp owner).2) ∧
    (resp = k_EAuthSessionResponseOK →
      ∀ s, Effect.endAuthSession s ∉ (OnValidateAuthTicketResponse reg sid resp owner).2) := by
  have hfind := findTicketReceivedConn_eq_none hnone
  by_cases hr : resp = k_EAuthSessionResponseOK <;>
    simp [OnValidateAuthTicketResponse, hfind, hr]

/-- Witness for C6: a failure response (`resp = 1`) for identity `42` against
a registry whose only record is pending: registry unchanged, warning logged,
`EndAuthSession(42)` called. -/
theorem C6_witness :
    (OnValidateAuthTicketResponse [(1, ClientConnectionData.init)] 42 1 42).1 =
      [(1, ClientConnectionData.init)] ∧
    Effect.logWarn "no-matching-client-in-ticket-received-state" ∈
      (OnValidateAuthTicketResponse [(1, ClientConnectionData.init)] 42 1 42).2 ∧
    (1 ≠ k_EAuthSessionResponseOK →
      Effect.endAuthSession 42 ∈
        (OnValidateAuthTicketResponse [(1, ClientConnectionData.init)] 42 1 42).2) ∧
    (1 = k_EAuthSessionResponseOK →
      ∀ s, Effect.endAuthSession s ∉
        (OnValidateAuthTicketResponse [(1, ClientConnectionData.init)] 42 1 42).2) :=
  C6_unmatched_response [(1, ClientConnectionData.init)] 42 1 42 (by decide)

/-! ### Claim C8 -/

/-- C8: a success response whose owner identity differs from the connecting
identity is treated as a success: the matched `AUTH_TICKET_RECEIVED` record
becomes `AUTH_VALIDATED`, an `AUTH_SUCCESSFUL`-prefixed control message is
sent (with a warning logged), and the registry transition is identical to the
owner-matching case. -/
theorem C8_owner_mismatch (reg : Registry) (sid owner : Nat)
    (found : Nat × ClientConnectionData)
    (hfind : findTicketReceivedConn reg sid = some found)
    (hmm : sid ≠ owner) :
    lookupConn (OnValidateAuthTicketResponse reg sid k_EAuthSessionResponseOK owner).1
        found.1 =
      some { found.2 with m_eAuthState := EAuthState.AUTH_VALIDATED } ∧
    Effect.sendMessageToClient found.1
        "AUTH_SUCCESSFUL_WELCOME_PLAYER (owner mismatch noted)" ∈
      (OnValidateAuthTicketResponse reg sid k_EAuthSessionResponseOK owner).2 ∧
    isAuthSuccessfulMsg "AUTH_SUCCESSFUL_WELCOME_PLAYER (owner mismatch noted)" = true ∧
    Effect.logWarn "auth-validated-owner-mismatch-treating-as-valid" ∈
      (OnValidateAuthTicketResponse reg sid k_EAuthSessionResponseOK owner).2 ∧
    (OnValidateAuthTicketResponse reg sid k_EAuthSessionResponseOK owner).1 =
      (OnValidateAuthTicketResponse reg sid k_EAuthSessionResponseOK sid).1 := by
  refine ⟨?_, ?_, by decide, ?_, ?_⟩ <;>
    simp [OnValidateAuthTicketResponse, hfind, hmm, lookupConn_upsert_self]

/-- Witness for C8: identity `42` validated while the owner is `7`; the single
ticket-received record becomes validated and the mismatch message is sent. -/
theorem C8_witness :
    lookupConn
      (OnValidateAuthTicketResponse
        [(3, { m_steamID := 42, m_hConnection := 3,
               m_eAuthState := EAuthState.AUTH_TICKET_RECEIVED,
               m_authTicketData := [5] })] 42 k_EAuthSessionResponseOK 7).1 3 =
      some { m_steamID := 42, m_hConnection := 3,
             m_eAuthState := EAuthState.AUTH_VALIDATED, m_authTicketData := [5] } ∧
    Effect.sendMessageToClient 3
        "AUTH_SUCCESSFUL_WELCOME_PLAYER (owner mismatch noted)" ∈
      (OnValidateAuthTicketResponse
        [(3, { m_steamID := 42, m_hConnection := 3,
               m_eAuthState := EAuthState.AUTH_TICKET_RECEIVED,
               m_authTicketData := [5] })] 42 k_EAuthSessionResponseOK 7).2 ∧
    isAuthSuccessfulMsg "AUTH_SUCCESSFUL_WELCOME_PLAYER (owner mismatch noted)" = true ∧
    Effect.logWarn "auth-validated-owner-mismatch-treating-as-valid" ∈
      (OnValidateAuthTicketResponse
        [(3, { m_steamID := 42, m_hConnection := 3,
               m_eAuthState := EAuthState.AUTH_TICKET_RECEIVED,
               m_authTicketData := [5] })] 42 k_EAuthSessionResponseOK 7).2 ∧
    (OnValidateAuthTicketResponse
        [(3, { m_steamID := 42, m_hConnection := 3,
               m_eAuthState := EAuthState.AUTH_TICKET_RECEIVED,
               m_authTicketData := [5] })] 42 k_EAuthSessionResponseOK 7).1 =
      (OnValidateAuthTicketResponse
        [(3, { m_steamID := 42, m_hConnection := 3,
               m_eAuthState := EAuthState.AUTH_TICKET_RECEIVED,
               m_authTicketData := [5] })] 42 k_EAuthSessionResponseOK 42).1 :=
  C8_owner_mismatch
    [(3, { m_steamID := 42, m_hConnection := 3,
           m_eAuthState := EAuthState.AUTH_TICKET_RECEIVED,
           m_authTicketData := [5] })] 42 7
    (3, { m_steamID := 42, m_hConnection := 3,
          m_eAuthState := EAuthState.AUTH_TICKET_RECEIVED,
          m_authTicketData := [5] }) (by decide) (by decide)

/-! ### Claim C2 -/

/-- An inbound connection attempt event (`None → Connecting` on the server's
listen socket) for connection `i`, with `AcceptConnection` and
`SetConnectionPollGroup` succeeding. -/
def connectAttempt (i : Nat) : ServerEvent :=
  ServerEvent.statusChanged i ConnState.StateNone ConnState.Connecting true 0 true true

/-- A transport disconnect event for connection `i`. -/
def disconnectEvent (i : Nat) : ServerEvent :=
  ServerEvent.statusChanged i ConnState.Connected ConnState.ClosedByPeer true 0 true true

/-- One hundred successive inbound connection attempts, connections 1..100. -/
def capacityTrace : List ServerEvent :=
  (List.range 100).map (fun i => connectAttempt (i + 1))

/-- The registry after accepting connections 1..100 (the fixed capacity). -/
def regAtCapacity : Registry := (serverRun [] capacityTrace).1

/-- The registry after connection 1 disconnects from the full server. -/
def regAfterDrop : Registry := (serverStep regAtCapacity (disconnectEvent 1)).1

/-- C2: at or above the fixed capacity of 100 records an inbound attempt is
rejected with reason "Server full" and no record is created; below capacity
(with the transport accept succeeding) a `AUTH_PENDING` record is registered
under the connection id and the connection is accepted and added to the poll
group; concretely, connections 1..100 fill the registry, connection 101 is
rejected, connection 102 is rejected while full and accepted after
connection 1 disconnects. -/
theorem C2_admission :
    (∀ reg hConn idr a pg, 100 ≤ reg.length →
      OnSteamNetConnectionStatusChanged reg hConn ConnState.StateNone
          ConnState.Connecting true idr a pg =
        (reg, [Effect.logWarn "max-clients-reached-rejecting",
               Effect.closeConnection hConn "Server full"])) ∧
    (∀ reg hConn idr pg, reg.length < 100 →
      (OnSteamNetConnectionStatusChanged reg hConn ConnState.StateNone
          ConnState.Connecting true idr true pg).1 =
        upsertConn reg hConn { ClientConnectionData.init with m_hConnection := hConn } ∧
      lookupConn (OnSteamNetConnectionStatusChanged reg hConn ConnState.StateNone
          ConnState.Connecting true idr true pg).1 hConn =
        some { ClientConnectionData.init with m_hConnection := hConn } ∧
      Effect.acceptConnection hConn ∈
        (OnSteamNetConnectionStatusChanged reg hConn ConnState.StateNone
          ConnState.Connecting true idr true pg).2 ∧
      Effect.setConnectionPollGroup hConn ∈
        (OnSteamNetConnectionStatusChanged reg hConn ConnState.StateNone
          ConnState.Connecting true idr true pg).2) ∧
    regAtCapacity.length = 100 ∧
    serverStep regAtCapacity (connectAttempt 101) =
      (regAtCapacity, [Effect.logWarn "max-clients-reached-rejecting",
                       Effect.closeConnection 101 "Server full"]) ∧
    lookupConn (serverStep regAtCapacity (connectAttempt 102)).1 102 = none ∧
    lookupConn regAfterDrop 1 = none ∧
    regAfterDrop.length = 99 ∧
    lookupConn (serverStep regAfterDrop (connectAttempt 102)).1 102 =
      some { ClientConnectionData.init with m_hConnection := 102 } := by
  refine ⟨?_, ?_, by decide, by decide, by decide, by decide, by decide, by decide⟩
  · intro reg hConn idr a pg h
    simp [OnSteamNetConnectionStatusChanged, h]
  · intro reg hConn idr pg h
    have hns : ¬ reg.length ≥ 100 := by omega
    simp [OnSteamNetConnectionStatusChanged, hns, lookupConn_upsert_self]

/-- Witness for C2: the full registry rejects connection 101, and the empty
registry accepts connection 1. -/
theorem C2_witness :
    OnSteamNetConnectionStatusChanged regAtCapacity 101 ConnState.StateNone
        ConnState.Connecting true 0 true true =
      (regAtCapacity, [Effect.logWarn "max-clients-reached-rejecting",
                       Effect.closeConnection 101 "Server full"]) ∧
    lookupConn (OnSteamNetConnectionStatusChanged ([] : Registry) 1 ConnState.StateNone
        ConnState.Connecting true 0 true true).1 1 =
      some { ClientConnectionData.init with m_hConnection := 1 } :=
  ⟨C2_admission.1 regAtCapacity 101 0 true true (by decide),
   (C2_admission.2.1 [] 1 0 true (by decide)).2.1⟩

/-! ### Trace lemmas for claims C3 and C4 -/

/-- Whether an event is a well-formed ticket frame sent by connection `c`. -/
def isTicketFrameFrom (c : Nat) : ServerEvent → Bool
  | ServerEvent.clientMessage h d => decide (h = c) && decide (wellFormedTicketFrame d)
  | _ => false

/-- Number of well-formed ticket frames connection `c` sent in the history. -/
def sentFrames (c : Nat) (es : List ServerEvent) : Nat :=
  es.countP (isTicketFrameFrom c)

theorem sentFrames_append (c : Nat) (es es2 : List ServerEvent) :
    sentFrames c (es ++ es2) = sentFrames c es + sentFrames c es2 := by
  simp [sentFrames, List.countP_append]

theorem sentFrames_mono (c : Nat) (es : List ServerEvent) (e : ServerEvent) :
    sentFrames c es ≤ sentFrames c (es ++ [e]) := by
  rw [sentFrames_append]
  exact Nat.le_add_right _ _

/-- Routing-tail sends are always the `HELLO_SERVER` echo. -/
theorem afterTicketPhase_send (hConn : Nat) (data : List Nat)
    (cd : ClientConnectionData) (c : Nat) (msg : String)
    (hm : Effect.sendMessageToClient c msg ∈ afterTicketPhase hConn data cd) :
    msg = "SERVER_SAYS_HI_CLIENT" := by
  by_cases h1 : cd.m_eAuthState = EAuthState.AUTH_VALIDATED
  · by_cases h2 : data = stringBytes "HELLO_SERVER" <;>
      simp [afterTicketPhase, h1, h2] at hm
    exact hm.2
  · by_cases h2 : cd.m_eAuthState = EAuthState.AUTH_FAILED <;>
      simp [afterTicketPhase, h1, h2] at hm

/-- The message handler's only outbound send is the `HELLO_SERVER` echo. -/
theorem processMessage_send (reg : Registry) (h : Nat) (d : List Nat)
    (c : Nat) (msg : String)
    (hm : Effect.sendMessageToClient c msg ∈ (ProcessMessageFromClient reg h d).2) :
    msg = "SERVER_SAYS_HI_CLIENT" := by
  rcases hl : lookupConn reg h with _ | cd
  · simp [ProcessMessageFromClient, hl] at hm
  · by_cases hs : cd.m_eAuthState = EAuthState.AUTH_PENDING ∨
        cd.m_eAuthState = EAuthState.AUTH_TICKET_RECEIVED
    · by_cases hwf : wellFormedTicketFrame d
      · rw [processMessage_accepts hl hs hwf] at hm
        simp at hm
      · by_cases h1 : d.length > 4
        · have hc : ¬(ManualNetToHost32 d > 0 ∧ d.length = 4 + ManualNetToHost32 d) := by
            intro hc
            exact hwf ⟨h1, hc.1, hc.2⟩
          rcases hs with hs | hs <;>
            simp [ProcessMessageFromClient, hl, hs, h1, hc] at hm
        · rcases hs with hs | hs <;>
            simp [ProcessMessageFromClient, hl, hs, h1] at hm
    · simp only [ProcessMessageFromClient, hl, if_neg hs] at hm
      exact afterTicketPhase_send h d cd c msg hm

/-- The status-changed handler's only outbound send is the greeting. -/
theorem statusChanged_send (reg : Registry) (h : Nat) (o n : ConnState) (ls : Bool)
    (idr : Nat) (a pg : Bool) (c : Nat) (msg : String)
    (hm : Effect.sendMessageToClient c msg ∈
      (OnSteamNetConnectionStatusChanged reg h o n ls idr a pg).2) :
    msg = "WELCOME_SEND_AUTH_TICKET" := by
  by_cases hc1 : o = ConnState.StateNone ∧ n = ConnState.Connecting
  · by_cases hls : ls = true
    · by_cases hcap : reg.length ≥ 100
      · simp [OnSteamNetConnectionStatusChanged, hc1, hls, hcap] at hm
      · by_cases ha : a = true <;> by_cases hpg : pg = true <;>
          simp [OnSteamNetConnectionStatusChanged, hc1, hls, hcap, ha, hpg] at hm
    · simp [OnSteamNetConnectionStatusChanged, hc1, hls] at hm
  · by_cases hc2 : n = ConnState.Connected
    · rcases hl : lookupConn reg h with _ | cd
      · simp [OnSteamNetConnectionStatusChanged, hc1, hc2, hl] at hm
      · by_cases hid : idr = 0
        · simp [OnSteamNetConnectionStatusChanged, hc1, hc2, hl, hid] at hm
        · simp [OnSteamNetConnectionStatusChanged, hc1, hc2, hl, hid] at hm
          exact hm.2
    · by_cases hc3 : n = ConnState.ClosedByPeer ∨ n = ConnState.ProblemDetectedLocally
      · rcases hl : lookupConn reg h with _ | cd
        · simp [OnSteamNetConnectionStatusChanged, hc1, hc2, hc3, hl] at hm
        · by_cases hva : cd.m_eAuthState = EAuthState.AUTH_VALIDATED ∧ cd.m_steamID ≠ 0 <;>
            simp [OnSteamNetConnectionStatusChanged, HandleClientDisconnection,
              hc1, hc2, hc3, hl, hva] at hm
      · simp [OnSteamNetConnectionStatusChanged, hc1, hc2, hc3] at hm

/-- An `AUTH_SUCCESSFUL`-prefixed send out of the validation callback implies
a successful response and a matched `AUTH_TICKET_RECEIVED` record, addressed
to that record's connection. -/
theorem validate_send (reg : Registry) (sid resp owner : Nat) (c : Nat) (msg : String)
    (hm : Effect.sendMessageToClient c msg ∈
      (OnValidateAuthTicketResponse reg sid resp owner).2)
    (hsucc : isAuthSuccessfulMsg msg = true) :
    resp = k_EAuthSessionResponseOK ∧
    ∃ found, findTicketReceivedConn reg sid = some found ∧ c = found.1 := by
  rcases hfind : findTicketReceivedConn reg sid with _ | found
  · by_cases hr : resp = k_EAuthSessionResponseOK <;>
      simp [OnValidateAuthTicketResponse, hfind, hr] at hm
  · by_cases hr : resp = k_EAuthSessionResponseOK
    · by_cases ho : sid = owner
      · simp only [OnValidateAuthTicketResponse, hfind] at hm
        simp [hr, ho] at hm
        exact ⟨hr, found, rfl, hm.1⟩
      · simp only [OnValidateAuthTicketResponse, hfind] at hm
        simp [hr, ho] at hm
        exact ⟨hr, found, rfl, hm.1⟩
    · simp only [OnValidateAuthTicketResponse, hfind] at hm
      simp [hr] at hm
      rw [hm.2] at hsucc
      exact absurd hsucc (by decide)

/-- Characterization of registry entries after one event: every entry was
already present, or is not in `AUTH_TICKET_RECEIVED`, or shares its key with
a previous `AUTH_TICKET_RECEIVED` entry, or was just created by a well-formed
ticket frame from that connection. -/
theorem serverStep_mem (reg : Registry) (e : ServerEvent)
    (p : Nat × ClientConnectionData) (hp : p ∈ (serverStep reg e).1) :
    p ∈ reg ∨
    p.2.m_eAuthState ≠ EAuthState.AUTH_TICKET_RECEIVED ∨
    (∃ cd, (p.1, cd) ∈ reg ∧ cd.m_eAuthState = EAuthState.AUTH_TICKET_RECEIVED) ∨
    (∃ d, e = ServerEvent.clientMessage p.1 d ∧ wellFormedTicketFrame d) := by
  cases e with
  | statusChanged h o n ls idr a pg =>
    simp only [serverStep] at hp
    by_cases hc1 : o = ConnState.StateNone ∧ n = ConnState.Connecting
    · obtain ⟨ho1, hn1⟩ := hc1
      subst ho1
      subst hn1
      by_cases hls : ls = true
      · by_cases hcap : reg.length ≥ 100
        · simp [OnSteamNetConnectionStatusChanged, hls, hcap] at hp
          exact Or.inl hp
        · by_cases ha : a = true
          · simp [OnSteamNetConnectionStatusChanged, hls, hcap, ha] at hp
            rcases mem_upsert hp with hh | hh
            · subst hh
              exact Or.inr (Or.inl (by simp [ClientConnectionData.init]))
            · exact Or.inl hh
          · simp [OnSteamNetConnectionStatusChanged, hls, hcap, ha] at hp
            exact Or.inl hp
      · simp [OnSteamNetConnectionStatusChanged, hls] at hp
        exact Or.inl hp
    · by_cases hc2 : n = ConnState.Connected
      · subst hc2
        have hc1b : ¬(o = ConnState.StateNone ∧
            ConnState.Connected = ConnState.Connecting) := by simp
        rcases hl : lookupConn reg h with _ | cd
        · simp [OnSteamNetConnectionStatusChanged, hc1b, hl] at hp
          exact Or.inl hp
        · by_cases hid : idr = 0
          · simp [OnSteamNetConnectionStatusChanged, hc1b, hl, hid] at hp
            exact Or.inl (mem_erase hp)
          · simp [OnSteamNetConnectionStatusChanged, hc1b, hl, hid] at hp
            rcases mem_upsert hp with hh | hh
            · subst hh
              by_cases hTR : cd.m_eAuthState = EAuthState.AUTH_TICKET_RECEIVED
              · exact Or.inr (Or.inr (Or.inl ⟨cd, lookupConn_mem hl, hTR⟩))
              · exact Or.inr (Or.inl hTR)
            · exact Or.inl hh
      · by_cases hc3 : n = ConnState.ClosedByPeer ∨ n = ConnState.ProblemDetectedLocally
        · have hstep : (OnSteamNetConnectionStatusChanged reg h o n ls idr a pg).1 =
              (HandleClientDisconnection reg h).1 ∨
              (OnSteamNetConnectionStatusChanged reg h o n ls idr a pg).1 = reg := by
            rcases hc3 with hn1 | hn1 <;> subst hn1 <;>
              rcases hl : lookupConn reg h with _ | cd <;>
              simp [OnSteamNetConnectionStatusChanged, hl]
          rcases hstep with hstep | hstep
          · rw [hstep] at hp
            rcases hl : lookupConn reg h with _ | cd
            · simp [HandleClientDisconnection, hl] at hp
              exact Or.inl hp
            · simp [HandleClientDisconnection, hl] at hp
              exact Or.inl (mem_erase hp)
          · rw [hstep] at hp
            exact Or.inl hp
        · simp [OnSteamNetConnectionStatusChanged, hc1, hc2, hc3] at hp
          exact Or.inl hp
  | validateTicket sid resp owner =>
    simp only [serverStep] at hp
    rcases hfind : findTicketReceivedConn reg sid with _ | found
    · simp only [OnValidateAuthTicketResponse, hfind] at hp
      exact Or.inl hp
    · by_cases hr : resp = k_EAuthSessionResponseOK
      · by_cases ho : sid = owner
        · simp only [OnValidateAuthTicketResponse, hfind] at hp
          simp [hr, ho] at hp
          rcases mem_upsert hp with hh | hh
          · subst hh
            exact Or.inr (Or.inl (by simp))
          · exact Or.inl hh
        · simp only [OnValidateAuthTicketResponse, hfind] at hp
          simp [hr, ho] at hp
          rcases mem_upsert hp with hh | hh
          · subst hh
            exact Or.inr (Or.inl (by simp))
          · exact Or.inl hh
      · simp only [OnValidateAuthTicketResponse, hfind] at hp
        simp [hr] at hp
        rcases mem_upsert hp with hh | hh
        · subst hh
          exact Or.inr (Or.inl (by simp))
        · exact Or.inl hh
  | clientMessage h d =>
    simp only [serverStep] at hp
    rcases hl : lookupConn reg h with _ | cd
    · simp only [ProcessMessageFromClient, hl] at hp
      exact Or.inl hp
    · by_cases hs : cd.m_eAuthState = EAuthState.AUTH_PENDING ∨
          cd.m_eAuthState = EAuthState.AUTH_TICKET_RECEIVED
      · by_cases hwf : wellFormedTicketFrame d
        · rw [processMessage_accepts hl hs hwf] at hp
          simp at hp
          rcases mem_upsert hp with hh | hh
          · have hkey : p.1 = h := by rw [hh]
            exact Or.inr (Or.inr (Or.inr ⟨d, by rw [hkey], hwf⟩))
          · exact Or.inl hh
        · rw [(processMessage_rejects hl hs hwf).1] at hp
          exact Or.inl hp
      · simp only [ProcessMessageFromClient, hl, if_neg hs] at hp
        exact Or.inl hp

/-- Invariant tying the registry to the event history: every record in
`AUTH_TICKET_RECEIVED` belongs to a connection that has sent at least one
well-formed ticket frame. -/
def ticketFramesInv (reg : Registry) (es : List ServerEvent) : Prop :=
  ∀ p ∈ reg, p.2.m_eAuthState = EAuthState.AUTH_TICKET_RECEIVED →
    1 ≤ sentFrames p.1 es

theorem step_ticketFramesInv (reg : Registry) (es : List ServerEvent)
    (e : ServerEvent) (hinv : ticketFramesInv reg es) :
    ticketFramesInv (serverStep reg e).1 (es ++ [e]) := by
  intro p hp hTR
  rcases serverStep_mem reg e p hp with h | h | h | h
  · exact le_trans (hinv p h hTR) (sentFrames_mono _ _ _)
  · exact absurd hTR h
  · obtain ⟨cd, hcd, hcdTR⟩ := h
    exact le_trans (hinv (p.1, cd) hcd hcdTR) (sentFrames_mono _ _ _)
  · obtain ⟨d, he, hwf⟩ := h
    subst he
    have h1 : sentFrames p.1 [ServerEvent.clientMessage p.1 d] = 1 := by
      simp [sentFrames, isTicketFrameFrom, hwf]
    rw [sentFrames_append]
    omega

theorem run_ticketFramesInv (es : List ServerEvent) :
    ∀ reg hist, ticketFramesInv reg hist →
      ticketFramesInv (serverRun reg es).1 (hist ++ es) := by
  induction es with
  | nil =>
    intro reg hist hi
    simpa [serverRun] using hi
  | cons e es ih =>
    intro reg hist hi
    have h1 := step_ticketFramesInv reg hist e hi
    have h2 := ih (serverStep reg e).1 (hist ++ [e]) h1
    simpa [serverRun, List.append_assoc] using h2

theorem initial_ticketFramesInv : ticketFramesInv [] [] := by
  intro p hp
  simp at hp

/-! ### Claim C3 -/

/-- Statement of claim C3 exactly as written: on every trace, a connection
that is sent an `AUTH_SUCCESSFUL` control message has previously sent exactly
one well-formed ticket frame and its record is in `AUTH_TICKET_RECEIVED` when
the message is sent. -/
def ClaimC3 : Prop :=
  ∀ es reg eff e reg2 effs c msg,
    serverRun [] es = (reg, eff) →
    serverStep reg e = (reg2, effs) →
    Effect.sendMessageToClient c msg ∈ effs →
    isAuthSuccessfulMsg msg = true →
    sentFrames c es = 1 ∧
    ∃ cd, (c, cd) ∈ reg ∧ cd.m_eAuthState = EAuthState.AUTH_TICKET_RECEIVED

/-- Connection history of the C3 counterexample: connection 1 connects and
then sends two well-formed ticket frames (the second is re-parsed, claim
C10), remaining in `AUTH_TICKET_RECEIVED`. -/
def c3Events : List ServerEvent :=
  [connectAttempt 1,
   ServerEvent.statusChanged 1 ConnState.Connecting ConnState.Connected true 42 true true,
   ServerEvent.clientMessage 1 [0, 0, 0, 1, 7],
   ServerEvent.clientMessage 1 [0, 0, 0, 1, 8]]

/-- C3 as stated is false: after the two-frame history a successful
validation response still sends `AUTH_SUCCESSFUL_WELCOME_PLAYER` to
connection 1, which has sent two well-formed frames, not exactly one. -/
theorem C3_counterexample : ¬ ClaimC3 := by
  intro h
  have h2 := h c3Events (serverRun [] c3Events).1 (serverRun [] c3Events).2
    (ServerEvent.validateTicket 42 k_EAuthSessionResponseOK 42)
    (serverStep (serverRun [] c3Events).1
      (ServerEvent.validateTicket 42 k_EAuthSessionResponseOK 42)).1
    (serverStep (serverRun [] c3Events).1
      (ServerEvent.validateTicket 42 k_EAuthSessionResponseOK 42)).2
    1 "AUTH_SUCCESSFUL_WELCOME_PLAYER" rfl rfl (by decide) (by decide)
  exact absurd h2.1 (by decide)

/-- C3 amended: an `AUTH_SUCCESSFUL` message is sent only by a successful
validation callback to a connection whose record is in
`AUTH_TICKET_RECEIVED` for the validated identity, and that connection has
previously sent at least one (possibly more than one) well-formed ticket
frame. -/
theorem C3_auth_success (es : List ServerEvent) (reg : Registry) (eff : List Effect)
    (e : ServerEvent) (reg2 : Registry) (effs : List Effect) (c : Nat) (msg : String)
    (hrun : serverRun [] es = (reg, eff))
    (hstep : serverStep reg e = (reg2, effs))
    (hmem : Effect.sendMessageToClient c msg ∈ effs)
    (hsucc : isAuthSuccessfulMsg msg = true) :
    (∃ sid owner, e = ServerEvent.validateTicket sid k_EAuthSessionResponseOK owner ∧
      ∃ cd, (c, cd) ∈ reg ∧ cd.m_steamID = sid ∧
        cd.m_eAuthState = EAuthState.AUTH_TICKET_RECEIVED) ∧
    1 ≤ sentFrames c es := by
  have heffs : effs = (serverStep reg e).2 := by rw [hstep]
  rw [heffs] at hmem
  cases e with
  | statusChanged h o n ls idr a pg =>
    have := statusChanged_send reg h o n ls idr a pg c msg hmem
    rw [this] at hsucc
    exact absurd hsucc (by decide)
  | clientMessage h d =>
    have := processMessage_send reg h d c msg hmem
    rw [this] at hsucc
    exact absurd hsucc (by decide)
  | validateTicket sid resp owner =>
    obtain ⟨hr, found, hfind, hc⟩ := validate_send reg sid resp owner c msg hmem hsucc
    subst hr
    obtain ⟨hmemreg, hsid, hTR⟩ := findTicketReceivedConn_some hfind
    have hinv : ticketFramesInv reg es := by
      have h0 := run_ticketFramesInv es [] [] initial_ticketFramesInv
      rw [hrun] at h0
      simpa using h0
    constructor
    · refine ⟨sid, owner, rfl, found.2, ?_, hsid, hTR⟩
      rw [hc]
      exact hmemreg
    · have := hinv found hmemreg hTR
      rw [hc]
      exact this

/-- Witness for C3 (amended): a single-frame history followed by a successful
validation for identity 42. -/
theorem C3_witness :
    (∃ sid owner,
      ServerEvent.validateTicket 42 k_EAuthSessionResponseOK 42 =
        ServerEvent.validateTicket sid k_EAuthSessionResponseOK owner ∧
      ∃ cd, (1, cd) ∈ (serverRun [] [connectAttempt 1,
          ServerEvent.statusChanged 1 ConnState.Connecting ConnState.Connected true 42
            true true,
          ServerEvent.clientMessage 1 [0, 0, 0, 1, 7]]).1 ∧
        cd.m_steamID = sid ∧ cd.m_eAuthState = EAuthState.AUTH_TICKET_RECEIVED) ∧
    1 ≤ sentFrames 1 [connectAttempt 1,
      ServerEvent.statusChanged 1 ConnState.Connecting ConnState.Connected true 42
        true true,
      ServerEvent.clientMessage 1 [0, 0, 0, 1, 7]] :=
  C3_auth_success
    [connectAttempt 1,
     ServerEvent.statusChanged 1 ConnState.Connecting ConnState.Connected true 42
       true true,
     ServerEvent.clientMessage 1 [0, 0, 0, 1, 7]]
    (serverRun [] [connectAttempt 1,
      ServerEvent.statusChanged 1 ConnState.Connecting ConnState.Connected true 42
        true true,
      ServerEvent.clientMessage 1 [0, 0, 0, 1, 7]]).1
    (serverRun [] [connectAttempt 1,
      ServerEvent.statusChanged 1 ConnState.Connecting ConnState.Connected true 42
        true true,
      ServerEvent.clientMessage 1 [0, 0, 0, 1, 7]]).2
    (ServerEvent.validateTicket 42 k_EAuthSessionResponseOK 42)
    (serverStep (serverRun [] [connectAttempt 1,
      ServerEvent.statusChanged 1 ConnState.Connecting ConnState.Connected true 42
        true true,
      ServerEvent.clientMessage 1 [0, 0, 0, 1, 7]]).1
      (ServerEvent.validateTicket 42 k_EAuthSessionResponseOK 42)).1
    (serverStep (serverRun [] [connectAttempt 1,
      ServerEvent.statusChanged 1 ConnState.Connecting ConnState.Connected true 42
        true true,
      ServerEvent.clientMessage 1 [0, 0, 0, 1, 7]]).1
      (ServerEvent.validateTicket 42 k_EAuthSessionResponseOK 42)).2
    1 "AUTH_SUCCESSFUL_WELCOME_PLAYER" rfl rfl (by decide) (by decide)

/-! ### Claim C4 -/

theorem lookup_none_of_upsert {reg : Registry} {k : Nat} {v : ClientConnectionData}
    {x : Nat} (hn : lookupConn (upsertConn reg k v) x = none) :
    lookupConn reg x = none := by
  by_cases hk : x = k
  · subst hk
    rw [lookupConn_upsert_self] at hn
    cases hn
  · rw [lookupConn_upsert_ne _ _ _ _ hk] at hn
    exact hn

/-- Message processing never removes a registry entry. -/
theorem processMessage_keeps (reg : Registry) (h : Nat) (d : List Nat) (x : Nat)
    (cd : ClientConnectionData) (hx : lookupConn reg x = some cd) :
    lookupConn (ProcessMessageFromClient reg h d).1 x ≠ none := by
  rcases hl : lookupConn reg h with _ | cdh
  · simp [ProcessMessageFromClient, hl, hx]
  · by_cases hs : cdh.m_eAuthState = EAuthState.AUTH_PENDING ∨
        cdh.m_eAuthState = EAuthState.AUTH_TICKET_RECEIVED
    · by_cases hwf : wellFormedTicketFrame d
      · rw [processMessage_accepts hl hs hwf]
        by_cases hxh : x = h
        · subst hxh
          rw [lookupConn_upsert_self]
          simp
        · show lookupConn (upsertConn reg h _) x ≠ none
          rw [lookupConn_upsert_ne _ _ _ _ hxh, hx]
          simp
      · rw [(processMessage_rejects hl hs hwf).1, hx]
        simp
    · simp [ProcessMessageFromClient, hl, hs, hx]

/-- The validation callback never removes a registry entry. -/
theorem validate_keeps (reg : Registry) (sid resp owner : Nat) (x : Nat)
    (cd : ClientConnectionData) (hx : lookupConn reg x = some cd) :
    lookupConn (OnValidateAuthTicketResponse reg sid resp owner).1 x ≠ none := by
  rcases hfind : findTicketReceivedConn reg sid with _ | found
  · simp [OnValidateAuthTicketResponse, hfind, hx]
  · have hup : ∀ v : ClientConnectionData,
        lookupConn (upsertConn reg found.1 v) x ≠ none := by
      intro v
      by_cases hxf : x = found.1
      · subst hxf
        rw [lookupConn_upsert_self]
        simp
      · rw [lookupConn_upsert_ne _ _ _ _ hxf, hx]
        simp
    by_cases hr : resp = k_EAuthSessionResponseOK
    · by_cases ho : sid = owner
      · simp only [OnValidateAuthTicketResponse, hfind]
        simp only [hr, ho]
        simp only [ite_true, if_pos]
        exact hup _
      · simp only [OnValidateAuthTicketResponse, hfind]
        simp [hr, ho]
        exact hup _
    · simp only [OnValidateAuthTicketResponse, hfind]
      simp [hr]
      exact hup _

/-- Shutdown ends the auth session of every validated record. -/
theorem shutdown_mem (reg : Registry) (p : Nat × ClientConnectionData)
    (hp : p ∈ reg) (hv : p.2.m_eAuthState = EAuthState.AUTH_VALIDATED) :
    Effect.endAuthSession p.2.m_steamID ∈ shutdownEffects reg := by
  induction reg with
  | nil => simp at hp
  | cons q rest ih =>
    rcases List.mem_cons.mp hp with hq | hq
    · subst hq
      simp [shutdownEffects, hv]
    · exact List.mem_append_right _ (List.mem_cons_of_mem _ (ih hq))

/-- Statement of claim C4 exactly as written: on a transport
disconnect/problem event for a registered record, a `AUTH_VALIDATED` record
has its Identity Service session ended and the record is removed; and the
disconnect path is the only way a registry entry is ever removed by an
event. -/
def ClaimC4 : Prop :=
  (∀ reg hConn o n ls idr a pg cd,
    lookupConn reg hConn = some cd →
    (n = ConnState.ClosedByPeer ∨ n = ConnState.ProblemDetectedLocally) →
    (cd.m_eAuthState = EAuthState.AUTH_VALIDATED →
      Effect.endAuthSession cd.m_steamID ∈
        (OnSteamNetConnectionStatusChanged reg hConn o n ls idr a pg).2) ∧
    lookupConn (OnSteamNetConnectionStatusChanged reg hConn o n ls idr a pg).1
      hConn = none) ∧
  (∀ reg e hConn cd,
    lookupConn reg hConn = some cd →
    lookupConn (serverStep reg e).1 hConn = none →
    ∃ o n ls idr a pg, e = ServerEvent.statusChanged hConn o n ls idr a pg ∧
      (n = ConnState.ClosedByPeer ∨ n = ConnState.ProblemDetectedLocally))

/-- C4 as stated is false: a `Connected` status event whose remote identity is
invalid also erases the record (`server.cpp`, the `Invalid identity` branch),
which is not a disconnect/problem event; shown on a registry holding one
pending record. -/
theorem C4_counterexample : ¬ ClaimC4 := by
  intro h
  obtain ⟨o, n, ls, idr, a, pg, heq, hn⟩ := h.2 [(1, ClientConnectionData.init)]
    (ServerEvent.statusChanged 1 ConnState.Connecting ConnState.Connected true 0
      true true)
    1 ClientConnectionData.init (by decide) (by decide)
  cases heq
  exact absurd hn (by decide)

/-- C4 amended: on a disconnect/problem event for a registered record the
record is removed, and the Identity Service session is ended when the record
was `AUTH_VALIDATED` with a valid identity; an event removes a registry entry
only on a disconnect/problem event or on a `Connected` event with an invalid
remote identity; and `ShutdownSteam` clears the whole registry, ending the
session of every validated record. -/
theorem C4_teardown :
    (∀ reg hConn o n ls idr a pg cd,
      lookupConn reg hConn = some cd →
      (n = ConnState.ClosedByPeer ∨ n = ConnState.ProblemDetectedLocally) →
      (cd.m_eAuthState = EAuthState.AUTH_VALIDATED → cd.m_steamID ≠ 0 →
        Effect.endAuthSession cd.m_steamID ∈
          (OnSteamNetConnectionStatusChanged reg hConn o n ls idr a pg).2) ∧
      lookupConn (OnSteamNetConnectionStatusChanged reg hConn o n ls idr a pg).1
        hConn = none) ∧
    (∀ reg e hConn cd,
      lookupConn reg hConn = some cd →
      lookupConn (serverStep reg e).1 hConn = none →
      ∃ o n ls idr a pg, e = ServerEvent.statusChanged hConn o n ls idr a pg ∧
        ((n = ConnState.ClosedByPeer ∨ n = ConnState.ProblemDetectedLocally) ∨
          (n = ConnState.Connected ∧ idr = 0))) ∧
    (∀ reg, (ShutdownSteam reg).1 = [] ∧
      ∀ p ∈ reg, p.2.m_eAuthState = EAuthState.AUTH_VALIDATED →
        Effect.endAuthSession p.2.m_steamID ∈ (ShutdownSteam reg).2) := by
  refine ⟨?_, ?_, ?_⟩
  · intro reg hConn o n ls idr a pg cd hl hn
    have key : OnSteamNetConnectionStatusChanged reg hConn o n ls idr a pg =
        HandleClientDisconnection reg hConn := by
      rcases hn with hn | hn <;> subst hn <;>
        simp [OnSteamNetConnectionStatusChanged, hl]
    rw [key]
    constructor
    · intro hv hsid
      simp [HandleClientDisconnection, hl, hv, hsid]
    · simp [HandleClientDisconnection, hl, lookupConn_erase_self]
  · intro reg e hConn cd hl hnone
    cases e with
    | clientMessage h d =>
      exact absurd hnone (processMessage_keeps reg h d hConn cd hl)
    | validateTicket sid resp owner =>
      exact absurd hnone (validate_keeps reg sid resp owner hConn cd hl)
    | statusChanged h o n ls idr a pg =>
      by_cases hc1 : o = ConnState.StateNone ∧ n = ConnState.Connecting
      · obtain ⟨ho1, hn1⟩ := hc1
        subst ho1
        subst hn1
        exfalso
        by_cases hls : ls = true
        · by_cases hcap : reg.length ≥ 100
          · simp [serverStep, OnSteamNetConnectionStatusChanged, hls, hcap, hl] at hnone
          · by_cases ha : a = true
            · simp [serverStep, OnSteamNetConnectionStatusChanged, hls, hcap,
                ha] at hnone
              exact absurd (lookup_none_of_upsert hnone) (by rw [hl]; simp)
            · simp [serverStep, OnSteamNetConnectionStatusChanged, hls, hcap, ha,
                hl] at hnone
        · simp [serverStep, OnSteamNetConnectionStatusChanged, hls, hl] at hnone
      · by_cases hc2 : n = ConnState.Connected
        · subst hc2
          have hc1b : ¬(o = ConnState.StateNone ∧
              ConnState.Connected = ConnState.Connecting) := by simp
          rcases hlh : lookupConn reg h with _ | cdh
          · exfalso
            simp [serverStep, OnSteamNetConnectionStatusChanged, hc1b, hlh,
              hl] at hnone
          · by_cases hid : idr = 0
            · by_cases hxh : hConn = h
              · subst hxh
                exact ⟨o, ConnState.Connected, ls, idr, a, pg, rfl,
                  Or.inr ⟨rfl, hid⟩⟩
              · exfalso
                simp [serverStep, OnSteamNetConnectionStatusChanged, hc1b, hlh,
                  hid] at hnone
                rw [lookupConn_erase_ne _ _ _ hxh, hl] at hnone
                cases hnone
            · exfalso
              simp [serverStep, OnSteamNetConnectionStatusChanged, hc1b, hlh,
                hid] at hnone
              exact absurd (lookup_none_of_upsert hnone) (by rw [hl]; simp)
        · by_cases hc3 : n = ConnState.ClosedByPeer ∨ n = ConnState.ProblemDetectedLocally
          · by_cases hxh : hConn = h
            · subst hxh
              exact ⟨o, n, ls, idr, a, pg, rfl, Or.inl hc3⟩
            · exfalso
              have hstep : (OnSteamNetConnectionStatusChanged reg h o n ls idr a pg).1 =
                  (HandleClientDisconnection reg h).1 ∨
                  (OnSteamNetConnectionStatusChanged reg h o n ls idr a pg).1 = reg := by
                rcases hc3 with hn1 | hn1 <;> subst hn1 <;>
                  rcases hlh : lookupConn reg h with _ | cdh <;>
                  simp [OnSteamNetConnectionStatusChanged, hlh]
              simp only [serverStep] at hnone
              rcases hstep with hstep | hstep
              · rw [hstep] at hnone
                rcases hlh : lookupConn reg h with _ | cdh
                · simp [HandleClientDisconnection, hlh] at hnone
                  rw [hnone] at hl
                  cases hl
                · simp [HandleClientDisconnection, hlh] at hnone
                  rw [lookupConn_erase_ne _ _ _ hxh, hl] at hnone
                  cases hnone
              · rw [hstep, hl] at hnone
                cases hnone
          · exfalso
            simp [serverStep, OnSteamNetConnectionStatusChanged, hc1, hc2, hc3,
              hl] at hnone
  · intro reg
    exact ⟨rfl, fun p hp hv => shutdown_mem reg p hp hv⟩

/-- Witness for C4 (amended): a validated record for identity 42 on
connection 5 is torn down by a `ClosedByPeer` event: session ended, record
gone. -/
theorem C4_witness :
    ((({ m_steamID := 42, m_hConnection := 5,
         m_eAuthState := EAuthState.AUTH_VALIDATED,
         m_authTicketData := [] } : ClientConnectionData).m_eAuthState =
          EAuthState.AUTH_VALIDATED →
      (42 : Nat) ≠ 0 →
      Effect.endAuthSession 42 ∈
        (OnSteamNetConnectionStatusChanged
          [(5, { m_steamID := 42, m_hConnection := 5,
                 m_eAuthState := EAuthState.AUTH_VALIDATED,
                 m_authTicketData := [] })] 5 ConnState.Connected
          ConnState.ClosedByPeer true 0 true true).2) ∧
    lookupConn
      (OnSteamNetConnectionStatusChanged
        [(5, { m_steamID := 42, m_hConnection := 5,
               m_eAuthState := EAuthState.AUTH_VALIDATED,
               m_authTicketData := [] })] 5 ConnState.Connected
        ConnState.ClosedByPeer true 0 true true).1 5 = none) :=
  C4_teardown.1
    [(5, { m_steamID := 42, m_hConnection := 5,
           m_eAuthState := EAuthState.AUTH_VALIDATED, m_authTicketData := [] })]
    5 ConnState.Connected ConnState.ClosedByPeer true 0 true true
    { m_steamID := 42, m_hConnection := 5,
      m_eAuthState := EAuthState.AUTH_VALIDATED, m_authTicketData := [] }
    (by decide) (Or.inl rfl)

end SMCS
